import Mathlib

/-!
Verification of `qute`'s persistence layer (`src/qute/persistance.py`).

Shallow embedding of the `SqliteDict` facade and its worker-thread
`Connection` class.  Machine-level conventions:

* Values are pluggable, as in the source (`encode : α → β`, `decode : β → α`
  supplied at construction; the default pickle pair is opaque to this layer).
* The sqlite engine is an external collaborator; it is modelled at its
  boundary by `execSql`, an interpreter for exactly the statement strings this
  program generates.  A statement string that is not one of the well-formed
  templates is rejected with an operational error, which is what
  `sqlite3.Cursor.execute` does on a syntax error.
* Python exceptions become `Except PyErr`; a call that blocks forever
  (a caller stuck on `Queue.get` that no one will ever feed) becomes `none`
  in an `Option`-typed result.
* The table, ordered by sqlite `rowid` (physical insertion order), is a
  `List (String × β)` of key/value rows, oldest first.
-/

namespace Qute

/-- Decidable equality for `Except`, so concrete runs can be settled by
`decide`. -/
instance {ε σ : Type} [DecidableEq ε] [DecidableEq σ] :
    DecidableEq (Except ε σ) := fun a b =>
  match a, b with
  | .ok x, .ok y =>
    if h : x = y then isTrue (by rw [h]) else isFalse (by simp [h])
  | .error x, .error y =>
    if h : x = y then isTrue (by rw [h]) else isFalse (by simp [h])
  | .ok _, .error _ => isFalse (by simp)
  | .error _, .ok _ => isFalse (by simp)

/-- Python exception values, carrying kind and message (`src/qute/persistance.py`
raises `RuntimeError`, `KeyError`, `sqlite3.OperationalError`, `io.UnsupportedOperation`;
`update` additionally hits an `UnboundLocalError`, every `self.log` access on
`Connection` hits an `AttributeError` (the attribute is `self.logger`),
`connect()` hits a `NameError` (it calls the undefined `SqliteMultithread`),
and the mangled `__init__` mode dispatch is a compile-time error,
`compileError` here). -/
inductive PyErr where
  | runtimeError (msg : String)
  | keyError (key : String)
  | operationalError (msg : String)
  | unsupportedOperation (msg : String)
  | unboundLocalError (msg : String)
  | attributeError (msg : String)
  | nameError (msg : String)
  | compileError (msg : String)
  deriving Repr, DecidableEq

/-- One SQL cell: parameters bound into a statement and values of result rows.
`text` holds keys (keys are always strings), `blob` holds encoded values,
`int` holds counters such as `COUNT(*)`, `null` is SQL NULL. -/
inductive Cell (β : Type) where
  | text (s : String)
  | blob (b : β)
  | int (n : Nat)
  | null
  deriving Repr, DecidableEq

/-- A result row, as produced by cursor iteration. -/
abbrev Row (β : Type) := List (Cell β)

/-! ## Statement strings

Each definition below reproduces, character for character, the f-string the
source builds for a given (already quote-escaped) table name. -/

/-- `__setitem__`, line 335: `REPLACE INTO "{table}" (key, value) VALUES (?,?)`. -/
def ADD_ITEM (t : String) : String :=
  "REPLACE INTO \"" ++ t ++ "\" (key, value) VALUES (?,?)"

/-- `update`, line 262: `REPLACE INTO "{table}" (key, value) VALUES (?, ?)`. -/
def UPDATE_ITEMS (t : String) : String :=
  "REPLACE INTO \"" ++ t ++ "\" (key, value) VALUES (?, ?)"

/-- `__delitem__`, line 346: the source reads
`f'DELETE FROM ""{self.table}" WHERE key = ?'` — note the doubled quote before
the table name.  The produced string therefore starts `DELETE FROM ""`,
which sqlite's tokenizer reads as an empty quoted identifier followed by a
stray unterminated quote: a syntax error, not a valid DELETE. -/
def DEL_ITEM (t : String) : String :=
  "DELETE FROM \"\"" ++ t ++ "\" WHERE key = ?"

/-- `clear`, line 244: `DELETE FROM "{table}";`. -/
def CLEAR_ALL (t : String) : String :=
  "DELETE FROM \"" ++ t ++ "\";"

/-- `__getitem__`, line 325. -/
def GET_ITEM (t : String) : String :=
  "SELECT value FROM \"" ++ t ++ "\" WHERE key = ?"

/-- `__contains__`, line 321. -/
def HAS_ITEM (t : String) : String :=
  "SELECT 1 FROM \"" ++ t ++ "\" WHERE key = ?"

/-- `__len__`, line 309. -/
def GET_LEN (t : String) : String :=
  "SELECT COUNT(*) FROM \"" ++ t ++ "\""

/-- `__bool__`, line 315. -/
def GET_MAX (t : String) : String :=
  "SELECT MAX(ROWID) FROM \"" ++ t ++ "\""

/-- The sentinel request string dispatched specially by the worker loop. -/
def COMMIT_REQ : String := "--commit--"

/-- The close request string dispatched specially by the worker loop. -/
def CLOSE_REQ : String := "--close--"

/-! ## The engine boundary -/

/-- sqlite `REPLACE INTO` on a `key TEXT PRIMARY KEY` table: the conflicting
row (if any) is deleted and the new row inserted with a fresh rowid, hence at
the end in rowid order. -/
def replaceRow {β : Type} (rows : List (String × β)) (k : String) (v : β) :
    List (String × β) :=
  rows.filter (fun r => r.1 ≠ k) ++ [(k, v)]

/-- The sqlite engine at its boundary, for the single table `t` of the store:
executes one parameterized statement against the rows, returning the updated
rows and the rows the cursor will yield.  Only the exact well-formed statement
strings this program generates are accepted; anything else (in particular the
malformed `DEL_ITEM` string) raises an operational error, as
`sqlite3.Cursor.execute` does. -/
def execSql {β : Type} (t : String) (stmt : String) (arg : List (Cell β))
    (rows : List (String × β)) :
    Except PyErr (List (String × β) × List (Row β)) :=
  if stmt = ADD_ITEM t ∨ stmt = UPDATE_ITEMS t then
    match arg with
    | [Cell.text k, Cell.blob v] => .ok (replaceRow rows k v, [])
    | _ => .error (.operationalError "Incorrect number of bindings supplied")
  else if stmt = CLEAR_ALL t then
    .ok ([], [])
  else if stmt = GET_ITEM t then
    match arg with
    | [Cell.text k] =>
      .ok (rows, (rows.filter (fun r => r.1 = k)).map (fun r => [Cell.blob r.2]))
    | _ => .error (.operationalError "Incorrect number of bindings supplied")
  else if stmt = HAS_ITEM t then
    match arg with
    | [Cell.text k] =>
      .ok (rows, (rows.filter (fun r => r.1 = k)).map (fun _ => [Cell.int 1]))
    | _ => .error (.operationalError "Incorrect number of bindings supplied")
  else if stmt = GET_LEN t then
    .ok (rows, [[Cell.int rows.length]])
  else if stmt = GET_MAX t then
    .ok (rows, [[if rows.isEmpty then Cell.null else Cell.int rows.length]])
  else
    .error (.operationalError ("near error: unrecognized statement: " ++ stmt))

/-! ## The worker (`Connection.run`, lines 494–572) -/

/-- A queued request, as built by `Connection.execute` line 616:
`(req, arg or tuple(), res, stack)`.  `hasRes` records whether a response
queue was attached (the captured outer stack plays no semantic role). -/
structure Request (β : Type) where
  stmt : String
  arg : List (Cell β)
  hasRes : Bool
  deriving Repr, DecidableEq

/-- A message the worker puts into a request's response queue: either a
cursor row or the `"--no more--"` end-of-results sentinel. -/
inductive ResMsg (β : Type) where
  | row (r : Row β)
  | noMore
  deriving Repr, DecidableEq

/-- What the worker loop does after servicing one request: keep looping, or
die — there is no clean exit: even the `"--close--"` epilogue dies on a
missing attribute before delivering its sentinel (see `stepReq`). -/
inductive WorkerAct where
  | next
  | crashed
  deriving Repr, DecidableEq

/-- Worker-side state: the table rows, the pending-failure slot
(`self.exception`), and a count of native `conn.commit()` calls issued. -/
structure WorkerSt (β : Type) where
  rows : List (String × β)
  exception : Option PyErr
  commits : Nat
  deriving Repr, DecidableEq

/-- One iteration of the worker loop (`Connection.run` lines 523–572), given
the dequeued request.  Returns the new worker state, the messages put into the
request's response queue, and whether the loop continues.

On `"--close--"` the loop breaks (lines 525–527), but the epilogue's
`self.log.debug(...)` (line 570) hits a missing attribute —
`Connection.__init__` defines `self.logger`, never `self.log` — so an
`AttributeError` escapes `run()` before `conn.close()` and before the
sentinel put of line 572: the thread dies and no sentinel is delivered.
On `"--commit--"` a native commit is issued and, when a response queue is
attached, the sentinel is put (lines 528–531).
Otherwise the statement is executed; on success the cursor rows and then the
sentinel are put when a response queue is attached, and a native commit
follows under autocommit (lines 532–534, 562–568).
On a statement failure the exception is captured into the slot
(line 536), but the handler then calls `self.log.error(...)` (line 549) —
again the missing `self.log` — so an `AttributeError` escapes `run()` and
the thread dies before any `res.put`: no sentinel is delivered and the loop
never resumes. -/
def stepReq {β : Type} (autocommit : Bool) (t : String) (w : WorkerSt β)
    (r : Request β) : WorkerSt β × List (ResMsg β) × WorkerAct :=
  if r.stmt = CLOSE_REQ then
    (w, [], WorkerAct.crashed)
  else if r.stmt = COMMIT_REQ then
    ({ w with commits := w.commits + 1 },
     if r.hasRes then [ResMsg.noMore] else [],
     WorkerAct.next)
  else
    match execSql t r.stmt r.arg w.rows with
    | .ok (rows2, cursorRows) =>
      ({ w with
          rows := rows2,
          commits := w.commits + (if autocommit then 1 else 0) },
       if r.hasRes then cursorRows.map ResMsg.row ++ [ResMsg.noMore] else [],
       WorkerAct.next)
    | .error e =>
      ({ w with exception := some e }, [], WorkerAct.crashed)

/-- The worker loop over a queue snapshot: services requests strictly in
queue order, one at a time, stopping when the thread dies (a close request or
a failed statement).  Returns the final worker state and the list of requests
actually serviced, in order. -/
def runWorker {β : Type} (autocommit : Bool) (t : String) :
    List (Request β) → WorkerSt β → WorkerSt β × List (Request β)
  | [], w => (w, [])
  | r :: rs, w =>
    match stepReq autocommit t w r with
    | (w2, _, WorkerAct.next) =>
      match runWorker autocommit t rs w2 with
      | (wf, tr) => (wf, r :: tr)
    | (w2, _, _) => (w2, [r])

/-! ## The `Connection` caller-side API (lines 574–694)

The caller-side methods are modelled with a sequential semantics: enqueueing
a request and the worker servicing it are fused into one step (the worker is
idle and alive unless it has crashed), which is one legal schedule of the real
system and the one the store-state claims are about.  `reqLog` records every
request ever placed on the queue, so "never contacts the worker" is the
statement that `reqLog` is unchanged. -/

/-- Caller-visible connection state: the worker state, whether the worker
thread is still alive, and the log of all requests enqueued so far. -/
structure Conn (β : Type) where
  w : WorkerSt β
  alive : Bool
  reqLog : List (Request β)
  deriving Repr, DecidableEq

/-- `Connection.check_raise_error` (lines 574–602): if the pending-failure
slot is occupied, the slot is cleared first (line 589) — but the very next
statement, `self.log.error(...)` (line 591), hits the missing `self.log`
attribute, so what the caller actually receives is an `AttributeError`: the
`reraise` of the captured exception (line 602) is never reached and the
captured failure is discarded.  With an empty slot the call does nothing. -/
def check_raise_error {β : Type} (c : Conn β) : Except PyErr Unit × Conn β :=
  match c.w.exception with
  | some _ =>
    (.error (.attributeError "Connection object has no attribute log"),
      { c with w := { c.w with exception := none } })
  | none => (.ok (), c)

/-- `Connection.execute` (lines 604–616): wait for worker initialization
(modelled as already flagged), call `check_raise_error` — which may raise a
pending failure, in which case nothing is enqueued — then put the request on
the queue.  In the fused schedule the worker, if alive, services the request
immediately; the messages it put into the response queue are returned. -/
def connExecute {β : Type} (autocommit : Bool) (t : String) (c : Conn β)
    (r : Request β) : Except PyErr Unit × Conn β × List (ResMsg β) :=
  match check_raise_error c with
  | (.error e, c2) => (.error e, c2, [])
  | (.ok _, c2) =>
    let c3 := { c2 with reqLog := c2.reqLog ++ [r] }
    if c3.alive then
      match stepReq autocommit t c3.w r with
      | (w2, puts, act) =>
        (.ok (), { c3 with w := w2, alive := act = WorkerAct.next }, puts)
    else
      (.ok (), c3, [])

/-- `Connection.select_one` (lines 640–645) applied to `select` (623–638):
`select` is a generator, and `select_one` pulls exactly one item from it:
after `execute` (which may raise a pending failure), the caller blocks on
`res.get()` for the first message — `none` if no message will ever arrive —
then runs `check_raise_error`, and returns `none` for the `"--no more--"`
sentinel (via `StopIteration`) or the first row; the rest of the generator is
abandoned. -/
def connSelectOne {β : Type} (autocommit : Bool) (t : String) (c : Conn β)
    (stmt : String) (arg : List (Cell β)) :
    Option (Except PyErr (Option (Row β)) × Conn β) :=
  match connExecute autocommit t c ⟨stmt, arg, true⟩ with
  | (.error e, c2, _) => some (.error e, c2)
  | (.ok _, c2, puts) =>
    match puts with
    | [] => none
    | msg :: _ =>
      match check_raise_error c2 with
      | (.error e, c3) => some (.error e, c3)
      | (.ok _, c3) =>
        match msg with
        | ResMsg.noMore => some (.ok none, c3)
        | ResMsg.row r => some (.ok (some r), c3)

/-- `Connection.executemany` (lines 618–621), enqueue loop: one `execute`
per parameter tuple, in list order; each `execute` itself begins with
`check_raise_error`. -/
def executemanyLoop {β : Type} (autocommit : Bool) (t : String)
    (stmt : String) : Conn β → List (List (Cell β)) → Except PyErr Unit × Conn β
  | c, [] => (.ok (), c)
  | c, item :: rest =>
    match connExecute autocommit t c ⟨stmt, item, false⟩ with
    | (.error e, c2, _) => (.error e, c2)
    | (.ok _, c2, _) => executemanyLoop autocommit t stmt c2 rest

/-- `Connection.executemany` (lines 618–621): loop `execute` over the
parameter tuples, then a final `check_raise_error`. -/
def connExecutemany {β : Type} (autocommit : Bool) (t : String) (c : Conn β)
    (stmt : String) (items : List (List (Cell β))) : Except PyErr Unit × Conn β :=
  match executemanyLoop autocommit t stmt c items with
  | (.error e, c2) => (.error e, c2)
  | (.ok _, c2) => check_raise_error c2

/-- `Connection.commit` (lines 647–656): when blocking, awaits completion via
`select_one("--commit--")` so that a pending failure is thrown and the native
commit has been issued before returning; otherwise fire-and-forget
`execute("--commit--")`. -/
def connCommit {β : Type} (autocommit : Bool) (t : String) (c : Conn β)
    (blocking : Bool) : Option (Except PyErr Unit × Conn β) :=
  if blocking then
    match connSelectOne autocommit t c COMMIT_REQ [] with
    | none => none
    | some (.error e, c2) => some (.error e, c2)
    | some (.ok _, c2) => some (.ok (), c2)
  else
    match connExecute autocommit t c ⟨COMMIT_REQ, [], false⟩ with
    | (.error e, c2, _) => some (.error e, c2)
    | (.ok _, c2, _) => some (.ok (), c2)

/-- `Connection.close` (lines 658–671): forced close pushes the close request
straight onto the queue without waiting; a normal close drives it through
`select_one` and joins the worker. -/
def connClose {β : Type} (autocommit : Bool) (t : String) (c : Conn β)
    (force : Bool) : Option (Except PyErr Unit × Conn β) :=
  if force then
    let creq : Request β := ⟨CLOSE_REQ, [], true⟩
    let c2 := { c with reqLog := c.reqLog ++ [creq] }
    if c2.alive then
      match stepReq autocommit t c2.w creq with
      | (w2, _, act) => some (.ok (), { c2 with w := w2, alive := act = WorkerAct.next })
    else some (.ok (), c2)
  else
    match connSelectOne autocommit t c CLOSE_REQ [] with
    | none => none
    | some (.error e, c2) => some (.error e, c2)
    | some (.ok _, c2) => some (.ok (), c2)

/-! ## The `SqliteDict` facade (lines 82–451) -/

/-- Facade state: open mode, quote-escaped table name, autocommit flag, the
pluggable encoder/decoder pair, and the connection. -/
structure Store (α β : Type) where
  mode : String
  table : String
  autocommit : Bool
  encode : α → β
  decode : β → α
  conn : Conn β

/-- `SqliteDict.commit` (lines 369–377): delegate to the connection (present
in this model). -/
def storeCommit {α β : Type} (d : Store α β) (blocking : Bool) :
    Option (Except PyErr Unit × Store α β) :=
  match connCommit d.autocommit d.table d.conn blocking with
  | none => none
  | some (r, c2) => some (r, { d with conn := c2 })

/-- `SqliteDict.__setitem__` (lines 331–338): refuse on a read-only store,
otherwise execute `ADD_ITEM` with the key and the encoded value and, under
autocommit, a blocking commit. -/
def setitem {α β : Type} (d : Store α β) (k : String) (v : α) :
    Option (Except PyErr Unit × Store α β) :=
  if d.mode = "r" then
    some (.error (.runtimeError "Refusing to write to read-only SqliteDict"), d)
  else
    match connExecute d.autocommit d.table d.conn
        ⟨ADD_ITEM d.table, [Cell.text k, Cell.blob (d.encode v)], false⟩ with
    | (.error e, c2, _) => some (.error e, { d with conn := c2 })
    | (.ok _, c2, _) =>
      if d.autocommit then storeCommit { d with conn := c2 } true
      else some (.ok (), { d with conn := c2 })

/-- `SqliteDict.__getitem__` (lines 324–329): `select_one` on `GET_ITEM`;
`KeyError` when no row matched, otherwise decode the blob of the row. -/
def getitem {α β : Type} (d : Store α β) (k : String) :
    Option (Except PyErr α × Store α β) :=
  match connSelectOne d.autocommit d.table d.conn (GET_ITEM d.table) [Cell.text k] with
  | none => none
  | some (.error e, c2) => some (.error e, { d with conn := c2 })
  | some (.ok none, c2) => some (.error (.keyError k), { d with conn := c2 })
  | some (.ok (some row), c2) =>
    match row with
    | [Cell.blob b] => some (.ok (d.decode b), { d with conn := c2 })
    | _ => some (.error (.operationalError "unexpected row shape"), { d with conn := c2 })

/-- `SqliteDict.__contains__` (lines 320–322): `select_one` on `HAS_ITEM` is
not `None`. -/
def containsKey {α β : Type} (d : Store α β) (k : String) :
    Option (Except PyErr Bool × Store α β) :=
  match connSelectOne d.autocommit d.table d.conn (HAS_ITEM d.table) [Cell.text k] with
  | none => none
  | some (.error e, c2) => some (.error e, { d with conn := c2 })
  | some (.ok r, c2) => some (.ok r.isSome, { d with conn := c2 })

/-- `SqliteDict.__len__` (lines 303–311): first cell of the
`SELECT COUNT(*)` row, with `None` mapped to 0. -/
def lenStore {α β : Type} (d : Store α β) :
    Option (Except PyErr Nat × Store α β) :=
  match connSelectOne d.autocommit d.table d.conn (GET_LEN d.table) [] with
  | none => none
  | some (.error e, c2) => some (.error e, { d with conn := c2 })
  | some (.ok r, c2) =>
    match r with
    | some (Cell.int n :: _) => some (.ok n, { d with conn := c2 })
    | some (Cell.null :: _) => some (.ok 0, { d with conn := c2 })
    | _ => some (.error (.operationalError "unexpected COUNT row"), { d with conn := c2 })

/-- `SqliteDict.__delitem__` (lines 340–349): refuse on a read-only store;
raise `KeyError` when the key is absent; otherwise execute the (malformed)
`DEL_ITEM` statement and, under autocommit, a blocking commit. -/
def delitem {α β : Type} (d : Store α β) (k : String) :
    Option (Except PyErr Unit × Store α β) :=
  if d.mode = "r" then
    some (.error (.runtimeError "Refusing to delete from read-only SqliteDict"), d)
  else
    match containsKey d k with
    | none => none
    | some (.error e, d2) => some (.error e, d2)
    | some (.ok false, d2) => some (.error (.keyError k), d2)
    | some (.ok true, d2) =>
      match connExecute d2.autocommit d2.table d2.conn
          ⟨DEL_ITEM d2.table, [Cell.text k], false⟩ with
      | (.error e, c2, _) => some (.error e, { d2 with conn := c2 })
      | (.ok _, c2, _) =>
        if d2.autocommit then storeCommit { d2 with conn := c2 } true
        else some (.ok (), { d2 with conn := c2 })

/-- `SqliteDict.clear` (lines 236–247): refuse on a read-only store;
otherwise a blocking connection commit, the `CLEAR_ALL` statement, and a
second blocking connection commit. -/
def clearStore {α β : Type} (d : Store α β) :
    Option (Except PyErr Unit × Store α β) :=
  if d.mode = "r" then
    some (.error (.runtimeError "Refusing to clear read-only SqliteDict"), d)
  else
    match connCommit d.autocommit d.table d.conn true with
    | none => none
    | some (.error e, c2) => some (.error e, { d with conn := c2 })
    | some (.ok _, c2) =>
      match connExecute d.autocommit d.table c2 ⟨CLEAR_ALL d.table, [], false⟩ with
      | (.error e, c3, _) => some (.error e, { d with conn := c3 })
      | (.ok _, c3, _) =>
        match connCommit d.autocommit d.table c3 true with
        | none => none
        | some (r, c4) => some (r, { d with conn := c4 })

/-- `SqliteDict.update` (lines 250–265): refuse on a read-only store.  On a
writable store the body then reads the local `items` before its first
assignment (`items = items.items()`, line 257) — an `UnboundLocalError`,
which the surrounding `except AttributeError` does not catch — so `update`
raises before building any statement. -/
def updateStore {α β : Type} (d : Store α β)
    (_other : List (String × α)) : Option (Except PyErr Unit × Store α β) :=
  if d.mode = "r" then
    some (.error (.runtimeError ""), d)
  else
    some (.error (.unboundLocalError
      "local variable referenced before assignment"), d)

/-- `SqliteDict.close` (lines 381–400): with autocommit and no force, a
blocking commit first; then close the connection.  (Removing a temp backing
file is an external effect outside this state model.) -/
def closeStore {α β : Type} (d : Store α β) (force : Bool) :
    Option (Except PyErr Unit × Store α β) :=
  if d.autocommit ∧ ¬force then
    match connCommit d.autocommit d.table d.conn true with
    | none => none
    | some (.error e, c2) => some (.error e, { d with conn := c2 })
    | some (.ok _, c2) =>
      match connClose d.autocommit d.table c2 force with
      | none => none
      | some (r, c3) => some (r, { d with conn := c3 })
  else
    match connClose d.autocommit d.table d.conn force with
    | none => none
    | some (r, c2) => some (r, { d with conn := c2 })

/-- `SqliteDict.terminate` (lines 403–418): refuse on a read-only store;
otherwise close and delete the backing file (the file deletion is an external
effect outside this state model). -/
def terminate {α β : Type} (d : Store α β) :
    Option (Except PyErr Unit × Store α β) :=
  if d.mode = "r" then
    some (.error (.runtimeError "Refusing to terminate read-only SqliteDict"), d)
  else
    closeStore d false

/-! ## `SqliteDict.__init__` (lines 86–196) -/

/-- Filesystem effects the constructor can perform, in order. -/
inductive InitEffect where
  | tempFileCreated
  deriving Repr, DecidableEq

/-- `SqliteDict._VALID_MODES` (line 84). -/
def VALID_MODES : List String := ["r", "w", "a", "n"]

/-- The default of the `mode` parameter (line 90). -/
def defaultMode : String := "c"

/-- `SqliteDict.__init__`, statement by statement (lines 132–196):

1. mode validation (lines 132–134): an unrecognized mode raises
   `RuntimeError` before anything else happens;
2. path handling (lines 136–144): with no path given, a temporary file is
   created;
3. mode `"r"` (lines 161–167): the path and the table must already exist;
   then `self.connect()` runs, which at line 358 evaluates the undefined
   name `SqliteMultithread` (the class is named `Connection`) and raises
   `NameError`, so even a valid read-only open never completes;
4. modes `"w"`, `"a"`, `"n"` (lines 169–196): the source here is not
   syntactically valid Python — an `elif` chain follows an `else:` block
   (line 174) and several branch bodies are empty — so the module cannot be
   byte-compiled and no constructor call for these modes can execute; this
   dead end is modelled as `compileError`.

`pathGiven`/`pathExists`/`tableExists` abstract the filesystem facts the
constructor consults. -/
def sqliteDictInit (pathGiven pathExists tableExists : Bool) (mode : String) :
    Except PyErr Unit × List InitEffect :=
  if mode ∉ VALID_MODES then
    (.error (.runtimeError ("Unrecognized mode: \"" ++ mode ++ "\"")), [])
  else
    let effs := if pathGiven then [] else [InitEffect.tempFileCreated]
    if mode = "r" then
      if pathGiven ∧ ¬pathExists then
        (.error (.unsupportedOperation "path not writable"), effs)
      else if ¬tableExists then
        (.error (.unsupportedOperation "table not writable"), effs)
      else
        (.error (.nameError "name SqliteMultithread is not defined"), effs)
    else
      (.error (.compileError
        "invalid syntax in SqliteDict.__init__ mode dispatch (lines 169-196)"), effs)

/-! ## Concrete fixtures used by witnesses and counterexamples -/

/-- A fresh, healthy connection over `Nat` blobs. -/
def freshConn : Conn Nat := ⟨⟨[], none, 0⟩, true, []⟩

/-- A connection whose worker has already captured a pending failure. -/
def failedConn : Conn Nat :=
  ⟨⟨[("k0", 0)], some (PyErr.operationalError "no such column: bogus"), 0⟩, false, []⟩

/-- A writable store (append mode, default table name, no autocommit,
identity encoder/decoder over `Nat`). -/
def freshStore : Store Nat Nat := ⟨"a", "unnamed", false, id, id, freshConn⟩

/-- A read-only store. -/
def readonlyStore : Store Nat Nat := ⟨"r", "unnamed", false, id, id, freshConn⟩

/-! ## Theorems -/

/-- C10: constructing a `SqliteDict` with no mode argument uses the default
mode `"c"`, which is not among the accepted modes `("r", "w", "a", "n")`, so
the constructor raises `RuntimeError` — and it does so before any file,
including the temporary file of the pathless form, is created or touched. -/
theorem default_mode_always_rejected :
    defaultMode ∉ VALID_MODES ∧
    ∀ pathGiven pathExists tableExists : Bool,
      sqliteDictInit pathGiven pathExists tableExists defaultMode =
        (.error (.runtimeError "Unrecognized mode: \"c\""), []) := by
  decide

/-- C6 (divergence record): opening in write-fresh mode `"w"` cannot clear
the pre-existing table, because the constructor's mode dispatch for the
non-read-only modes (lines 169–196) is not syntactically valid Python: the
open never completes, against the documented intent that `"w"` first clears
the target table. -/
theorem mode_w_open_is_broken :
    ∀ pathExists tableExists : Bool,
      (sqliteDictInit true pathExists tableExists "w").1 =
        .error (.compileError
          "invalid syntax in SqliteDict.__init__ mode dispatch (lines 169-196)") := by
  decide

/-- C8 (divergence record): the slot is indeed a single optional value,
cleared on observation and never delivered twice — but the failure actually
delivered to the caller is not the captured one: `check_raise_error` clears
the slot and then dies on the missing `self.log` attribute (line 591) before
ever reaching `reraise` (line 602), so the caller receives an
`AttributeError` and the original failure's identity, kind and message are
lost, against the claim (and the function's own comments) that the original
captured failure is re-raised. -/
theorem check_raise_error_masks_captured_failure :
    check_raise_error failedConn =
      (.error (PyErr.attributeError "Connection object has no attribute log"),
        { failedConn with w := { failedConn.w with exception := none } }) ∧
    (check_raise_error failedConn).1 ≠
      .error (PyErr.operationalError "no such column: bogus") ∧
    check_raise_error (check_raise_error failedConn).2 =
      (.ok (), (check_raise_error failedConn).2) := by
  decide

/-- A select request whose statement sqlite rejects. -/
def badSelect : Request Nat := ⟨"SELECT bogus", [], true⟩

/-- C9 (divergence record): when a dequeued request carrying a response sink
fails, the worker captures the exception but then dies (the handler's
`self.log.error` hits a missing attribute) before any `res.put`: the
end-of-results sentinel is never placed into the sink and the loop does not
continue, so a caller blocked in `select` is never unblocked — against the
claim that the sentinel is always delivered. -/
theorem worker_statement_failure_drops_sentinel :
    stepReq false "unnamed" (⟨[], none, 0⟩ : WorkerSt Nat) badSelect =
      (⟨[], some (PyErr.operationalError
          "near error: unrecognized statement: SELECT bogus"), 0⟩,
        [], WorkerAct.crashed) ∧
    ResMsg.noMore ∉ (stepReq false "unnamed" (⟨[], none, 0⟩ : WorkerSt Nat) badSelect).2.1 := by
  decide

/-- C3: on a store opened read-only, `__setitem__`, `__delitem__`, `clear`,
`update` and `terminate` each raise `RuntimeError` synchronously and return
the store unchanged — in particular with its request log unchanged, so no
request reaches the worker. -/
theorem readonly_store_rejects_mutation {α β : Type} (d : Store α β)
    (k : String) (v : α) (other : List (String × α)) (hm : d.mode = "r") :
    setitem d k v =
      some (.error (.runtimeError "Refusing to write to read-only SqliteDict"), d) ∧
    delitem d k =
      some (.error (.runtimeError "Refusing to delete from read-only SqliteDict"), d) ∧
    clearStore d =
      some (.error (.runtimeError "Refusing to clear read-only SqliteDict"), d) ∧
    updateStore d other = some (.error (.runtimeError ""), d) ∧
    terminate d =
      some (.error (.runtimeError "Refusing to terminate read-only SqliteDict"), d) := by
  refine ⟨?_, ?_, ?_, ?_, ?_⟩ <;>
    simp [setitem, delitem, clearStore, updateStore, terminate, hm]

/-- Witness for C3 at a concrete read-only store. -/
theorem readonly_store_rejects_mutation_witness :
    setitem readonlyStore "k" 7 =
      some (.error (.runtimeError "Refusing to write to read-only SqliteDict"),
        readonlyStore) ∧
    delitem readonlyStore "k" =
      some (.error (.runtimeError "Refusing to delete from read-only SqliteDict"),
        readonlyStore) ∧
    clearStore readonlyStore =
      some (.error (.runtimeError "Refusing to clear read-only SqliteDict"),
        readonlyStore) ∧
    updateStore readonlyStore [] = some (.error (.runtimeError ""), readonlyStore) ∧
    terminate readonlyStore =
      some (.error (.runtimeError "Refusing to terminate read-only SqliteDict"),
        readonlyStore) :=
  readonly_store_rejects_mutation readonlyStore "k" 7 [] rfl

/-- A statement the engine rejects, enqueued with no response sink, as a
fire-and-forget `Connection.execute` does. -/
def badStmtReq : Request Nat := ⟨"THIS IS BOGUS", [], false⟩

/-- The `--commit--` request of a blocking commit, carrying the response
sink the caller blocks on. -/
def commitWithSink : Request Nat := ⟨COMMIT_REQ, [], true⟩

/-- C4 (divergence record): in the FIFO queue a malformed fire-and-forget
statement precedes the `--commit--` request of an immediately following
`commit(blocking=True)`.  The worker services the malformed statement first
and dies there (the captured-and-continue handler hits the missing
`self.log` attribute), so the `--commit--` request is never serviced: no
native commit is issued, nothing is ever put into the commit's response
sink — the caller blocks in `res.get()` forever — and the captured failure
is never raised to it, against "the failure is never lost". -/
theorem commit_after_failed_statement_never_serviced :
    runWorker false "unnamed" [badStmtReq, commitWithSink]
        (⟨[], none, 0⟩ : WorkerSt Nat) =
      (⟨[], some (PyErr.operationalError
          "near error: unrecognized statement: THIS IS BOGUS"), 0⟩,
        [badStmtReq]) := by
  decide

/-- A mutation request as the facade enqueues them: one of the two
`REPLACE INTO` statements for the table, with a key and a blob bound. -/
def IsMutation {β : Type} (t : String) (r : Request β) : Prop :=
  (r.stmt = ADD_ITEM t ∨ r.stmt = UPDATE_ITEMS t) ∧
  ∃ k v, r.arg = [Cell.text k, Cell.blob v]

/-- The effect of one mutation request on the table rows. -/
def applyMutation {β : Type} (rows : List (String × β)) (r : Request β) :
    List (String × β) :=
  match r.arg with
  | [Cell.text k, Cell.blob v] => replaceRow rows k v
  | _ => rows

/-- Servicing one mutation request: the replace is applied, the loop
continues, and only the sentinel is delivered when a sink is attached. -/
theorem stepReq_mutation {β : Type} (ac : Bool) (w : WorkerSt β)
    (r : Request β) (h : IsMutation "unnamed" r) :
    stepReq ac "unnamed" w r =
      ({ w with
          rows := applyMutation w.rows r,
          commits := w.commits + (if ac then 1 else 0) },
        if r.hasRes then [ResMsg.noMore] else [],
        WorkerAct.next) := by
  obtain ⟨hs, k, v, ha⟩ := h
  rcases hs with hs | hs <;>
    simp [stepReq, execSql, applyMutation, hs, ha, CLOSE_REQ, COMMIT_REQ,
      ADD_ITEM, UPDATE_ITEMS]

/-- C2: the worker loop services a queue of mutation requests strictly in
arrival order, one at a time: every request in the queue is serviced, the
serviced order is exactly the queue order, and the final table equals the
left fold of the mutations over the queue — the sequence of mutations the
store observes is the enqueue order. -/
theorem worker_services_in_fifo_order {β : Type} (ac : Bool)
    (reqs : List (Request β)) (w : WorkerSt β)
    (h : ∀ r ∈ reqs, IsMutation "unnamed" r) :
    (runWorker ac "unnamed" reqs w).2 = reqs ∧
    (runWorker ac "unnamed" reqs w).1.rows = reqs.foldl applyMutation w.rows := by
  induction reqs generalizing w with
  | nil => exact ⟨rfl, rfl⟩
  | cons r rs ih =>
    have hr : IsMutation "unnamed" r := h r (List.mem_cons_self r rs)
    have hrs : ∀ x ∈ rs, IsMutation "unnamed" x :=
      fun x hx => h x (List.mem_cons_of_mem r hx)
    have step := stepReq_mutation ac w r hr
    have ihw := ih { w with
        rows := applyMutation w.rows r,
        commits := w.commits + (if ac then 1 else 0) } hrs
    simp only [runWorker, step]
    constructor
    · simp [ihw.1]
    · simpa using ihw.2

/-- Witness for C2: a concrete queue of two replace requests is serviced in
order and yields the corresponding folded table. -/
theorem worker_services_in_fifo_order_witness :
    (runWorker false "unnamed"
        [⟨ADD_ITEM "unnamed", [Cell.text "a", Cell.blob 1], false⟩,
         ⟨ADD_ITEM "unnamed", [Cell.text "b", Cell.blob 2], false⟩]
        (⟨[], none, 0⟩ : WorkerSt Nat)).2 =
      [⟨ADD_ITEM "unnamed", [Cell.text "a", Cell.blob 1], false⟩,
       ⟨ADD_ITEM "unnamed", [Cell.text "b", Cell.blob 2], false⟩] ∧
    (runWorker false "unnamed"
        [⟨ADD_ITEM "unnamed", [Cell.text "a", Cell.blob 1], false⟩,
         ⟨ADD_ITEM "unnamed", [Cell.text "b", Cell.blob 2], false⟩]
        (⟨[], none, 0⟩ : WorkerSt Nat)).1.rows =
      [⟨ADD_ITEM "unnamed", [Cell.text "a", Cell.blob 1], false⟩,
       ⟨ADD_ITEM "unnamed", [Cell.text "b", Cell.blob 2], false⟩].foldl
        applyMutation [] :=
  worker_services_in_fifo_order false _ _ (by
    intro r hr
    simp only [List.mem_cons, List.not_mem_nil, or_false] at hr
    rcases hr with h | h <;> subst h
    · exact ⟨Or.inl rfl, "a", 1, rfl⟩
    · exact ⟨Or.inl rfl, "b", 2, rfl⟩)

/-- C7 counterexample: `Connection.execute` begins with `check_raise_error`,
so when a pending failure is already captured, `executemany` raises on
the very first `execute` — before enqueueing a single request — and what it
raises is not even the captured pending failure but the `AttributeError`
from the missing `self.log` (line 591), doubly contrary to "enqueues one
request per tuple ... and only after enqueueing all of them raises the last
captured pending failure". -/
theorem executemany_raises_before_enqueueing :
    (connExecutemany false "unnamed" failedConn (UPDATE_ITEMS "unnamed")
        [[Cell.text "a", Cell.blob 1], [Cell.text "b", Cell.blob 2]]).1 =
      .error (PyErr.attributeError "Connection object has no attribute log") ∧
    (connExecutemany false "unnamed" failedConn (UPDATE_ITEMS "unnamed")
        [[Cell.text "a", Cell.blob 1], [Cell.text "b", Cell.blob 2]]).1 ≠
      .error (PyErr.operationalError "no such column: bogus") ∧
    (connExecutemany false "unnamed" failedConn (UPDATE_ITEMS "unnamed")
        [[Cell.text "a", Cell.blob 1], [Cell.text "b", Cell.blob 2]]).2.reqLog =
      [] := by
  decide

/-- C7 as amended: each `execute` inside `executemany` first runs the
pending-failure check, which raises as soon as a failure is pending —
possibly before any tuple is enqueued — and, because of the `self.log` slip,
raises a masking `AttributeError` rather than the captured failure itself;
only when no check raises — in particular when no failure is pending at the
start and every tuple is a well-formed replace — does `executemany` enqueue
exactly one request per parameter tuple, preserving the list order, and
return normally after the final check. -/
theorem executemany_enqueues_in_order {β : Type} (ac : Bool) (c : Conn β)
    (items : List (String × β)) (he : c.w.exception = none)
    (ha : c.alive = true) :
    ∃ c2, connExecutemany ac "unnamed" c (UPDATE_ITEMS "unnamed")
        (items.map (fun p => [Cell.text p.1, Cell.blob p.2])) = (.ok (), c2) ∧
      c2.reqLog = c.reqLog ++ items.map
        (fun p => ⟨UPDATE_ITEMS "unnamed", [Cell.text p.1, Cell.blob p.2], false⟩) := by
  suffices hloop : ∀ (c : Conn β), c.w.exception = none → c.alive = true →
      ∃ c2, executemanyLoop ac "unnamed" (UPDATE_ITEMS "unnamed") c
          (items.map (fun p => [Cell.text p.1, Cell.blob p.2])) = (.ok (), c2) ∧
        c2.w.exception = none ∧
        c2.reqLog = c.reqLog ++ items.map
          (fun p => ⟨UPDATE_ITEMS "unnamed", [Cell.text p.1, Cell.blob p.2], false⟩) by
    obtain ⟨c2, hrun, hexc, hlog⟩ := hloop c he ha
    refine ⟨c2, ?_, hlog⟩
    simp [connExecutemany, hrun, check_raise_error, hexc]
  induction items with
  | nil =>
    intro c he _
    exact ⟨c, rfl, he, by simp⟩
  | cons p ps ih =>
    intro c he ha
    have hstep : IsMutation "unnamed"
        (⟨UPDATE_ITEMS "unnamed", [Cell.text p.1, Cell.blob p.2], false⟩ : Request β) :=
      ⟨Or.inr rfl, p.1, p.2, rfl⟩
    obtain ⟨c2, hrun, hexc, hlog⟩ := ih
      { c with
          w := { c.w with
                  rows := replaceRow c.w.rows p.1 p.2,
                  commits := c.w.commits + (if ac then 1 else 0) },
          alive := true,
          reqLog := c.reqLog ++
            [⟨UPDATE_ITEMS "unnamed", [Cell.text p.1, Cell.blob p.2], false⟩] }
      (by simp [he]) rfl
    refine ⟨c2, ?_, hexc, ?_⟩
    · simp only [List.map_cons, executemanyLoop, connExecute, check_raise_error, he, ha]
      simp only [stepReq_mutation ac c.w _ hstep, applyMutation]
      simpa [check_raise_error, he, ha] using hrun
    · simp [hlog]

/-- Witness for C7's amended theorem at a concrete connection and item
list. -/
theorem executemany_enqueues_in_order_witness :
    ∃ c2, connExecutemany false "unnamed" freshConn (UPDATE_ITEMS "unnamed")
        ([("a", 1), ("b", 2)].map (fun p => [Cell.text p.1, Cell.blob p.2])) =
        (.ok (), c2) ∧
      c2.reqLog = freshConn.reqLog ++ [("a", 1), ("b", 2)].map
        (fun p =>
          (⟨UPDATE_ITEMS "unnamed", [Cell.text p.1, Cell.blob p.2], false⟩ :
            Request Nat)) :=
  executemany_enqueues_in_order false freshConn [("a", 1), ("b", 2)] rfl rfl

/-- Rows excluded for a key contribute nothing to a subsequent filter for
that key: the `WHERE key = ?` lookup after a `REPLACE` sees only the fresh
row. -/
theorem filter_key_after_replace {β : Type} (k : String)
    (rows : List (String × β)) (v : β) :
    (replaceRow rows k v).filter (fun r => r.1 = k) = [(k, v)] := by
  unfold replaceRow
  rw [List.filter_append]
  have hnil : (rows.filter (fun r => r.1 ≠ k)).filter (fun r => r.1 = k) = [] := by
    induction rows with
    | nil => rfl
    | cons a l ih =>
      by_cases hak : a.1 = k
      · simp [List.filter_cons, hak, ih]
      · simp [List.filter_cons, hak, ih]
  simp [hnil]

/-- C1: on a writable store with no pending failure and a live worker,
`set(k, v)` followed by `get(k)` returns exactly `decode(encode(v))` for the
store's configured encoder/decoder pair. -/
theorem set_then_get_roundtrips {α β : Type} (d : Store α β) (k : String)
    (v : α) (hm : d.mode ≠ "r") (ht : d.table = "unnamed")
    (hac : d.autocommit = false) (he : d.conn.w.exception = none)
    (ha : d.conn.alive = true) :
    ∃ d1, setitem d k v = some (.ok (), d1) ∧
      (getitem d1 k).map (fun p => p.1) = some (.ok (d.decode (d.encode v))) := by
  obtain ⟨mode, table, ac, enc, dec, ⟨⟨rows, exc, cm⟩, alive, log⟩⟩ := d
  simp only at hm ht hac he ha
  subst ht hac he ha
  have hmut : IsMutation "unnamed"
      (⟨ADD_ITEM "unnamed", [Cell.text k, Cell.blob (enc v)], false⟩ : Request β) :=
    ⟨Or.inl rfl, k, enc v, rfl⟩
  refine ⟨⟨mode, "unnamed", false, enc, dec,
      ⟨⟨replaceRow rows k (enc v), none, cm⟩, true,
        log ++ [⟨ADD_ITEM "unnamed", [Cell.text k, Cell.blob (enc v)], false⟩]⟩⟩,
    ?_, ?_⟩
  · simp only [setitem, hm, if_neg, connExecute, check_raise_error]
    simp [stepReq_mutation _ _ _ hmut, applyMutation]
  · simp only [getitem, connSelectOne, connExecute, check_raise_error]
    simp [stepReq, execSql, GET_ITEM, ADD_ITEM, UPDATE_ITEMS, CLEAR_ALL,
      CLOSE_REQ, COMMIT_REQ, HAS_ITEM, GET_LEN, GET_MAX,
      filter_key_after_replace]

/-- Witness for C1 at a concrete store, key and value. -/
theorem set_then_get_roundtrips_witness :
    ∃ d1, setitem freshStore "k" 41 = some (.ok (), d1) ∧
      (getitem d1 "k").map (fun p => p.1) =
        some (.ok (freshStore.decode (freshStore.encode 41))) :=
  set_then_get_roundtrips freshStore "k" 41 (by decide) rfl rfl rfl rfl

/-- C5 (divergence record): after N = 2 `set` calls with distinct keys,
`length()` returns 2; but deleting M = 1 of those keys does not bring it to
N − M = 1: `__delitem__`'s statement (`DELETE FROM ""unnamed" WHERE key = ?`,
with its stray quote) is rejected by the engine, so the row stays in the
table and the worker captures the failure and dies; the next `length()` call
then raises the `AttributeError` from `check_raise_error`'s `self.log` slip
(masking the captured `OperationalError`) instead of returning 1, and a
further `length()` call — the slot now clear, the worker dead — blocks
forever on `res.get()`. -/
theorem delete_is_broken_len_not_decremented :
    ∃ d1 d2 d2L d3 d4,
      setitem freshStore "k1" 1 = some (.ok (), d1) ∧
      setitem d1 "k2" 2 = some (.ok (), d2) ∧
      lenStore d2 = some (.ok 2, d2L) ∧
      delitem d2L "k1" = some (.ok (), d3) ∧
      d3.conn.w.rows = [("k1", 1), ("k2", 2)] ∧
      d3.conn.w.exception = some (PyErr.operationalError
        ("near error: unrecognized statement: " ++ DEL_ITEM "unnamed")) ∧
      lenStore d3 = some (.error (PyErr.attributeError
        "Connection object has no attribute log"), d4) ∧
      lenStore d4 = none := by
  exact ⟨_, _, _, _, _, rfl, rfl, rfl, rfl, rfl, rfl, rfl, rfl⟩

end Qute
